import Mathlib

/-!
Shallow embedding of `src/server/game/src/server_thread/handlers/connection.rs`
(the per-connection handshake / login / keepalive handlers of the globed2 game
server).  Each handler is embedded as a pure function from the per-session
state and the inbound packet to the new session state together with the
ordered list of observable effects the handler performs: packets sent,
external service calls, and global-registry operations.  Machine integers of
the source (i32 account ids, u16 fragmentation limits) are modelled as
`Int` / `Nat`; none of the embedded code can overflow on the ranges involved.
-/

namespace Globed

/-- Modelled from the spec: the crypto context (`ChaChaBox` from the external
crypto library, not under `src/`) is derived once from the client-supplied
public key and the server's static secret key. -/
structure ChaChaBox where
  client_key : Nat
  server_secret_key : Nat
deriving DecidableEq, Repr

/-- Modelled from the spec: the user-profile entry fetched from the central
bridge (`UserEntry`, declared outside `src/`): ban flag, reason and expiry,
whitelist flag, role identifiers.  The expiry is optional, which is why the
source's `.unwrap()` on it is a partiality point. -/
structure UserEntry where
  is_banned : Bool := false
  is_whitelisted : Bool := false
  violation_reason : Option String := none
  violation_expiry : Option Int := none
  user_roles : List String := []
deriving DecidableEq, Repr, Inhabited

/-- The per-session display/account data record (`account_data` in the
source), mutated under a lock on successful login. -/
structure AccountData where
  account_id : Int := 0
  user_id : Int := 0
  icons : Nat := 0
  name : String := ""
  special_user_data : Nat := 0
deriving DecidableEq, Repr

/-- The per-session mutable fields of `GameServerThread` that the embedded
handlers read or write: the write-once crypto slot, the identity fields
(0 = unset), the fragmentation limit, role / profile copies, display data,
and the monotonic terminated flag. -/
structure SessionState where
  crypto_box : Option ChaChaBox := none
  account_id : Int := 0
  claim_secret_key : Int := 0
  fragmentation_limit : Nat := 0
  user_role : Nat := 0
  user_entry : UserEntry := {}
  account_data : AccountData := {}
  terminated : Bool := false
deriving DecidableEq, Repr

/-- Modelled from the spec: `self.authenticated()` (declared outside `src/`)
is derived as `account_id > 0`. -/
def SessionState.authenticated (s : SessionState) : Bool :=
  0 < s.account_id

/-- The observable effects a handler performs, in order: packets sent to the
client, calls to external collaborators (token validator, profile service),
and global-registry operations.  `check_already_logged_in a` records the call
that, per the spec, admits account `a` and force-terminates any prior session
holding it. -/
inductive Event where
  | send_ping_response (id : Nat) (player_count : Nat)
  | send_protocol_mismatch (protocol : Nat)
  | send_handshake_response (key : Nat)
  | send_disconnect (message : String)
  | send_login_failed (message : String)
  | send_banned (message : String) (timestamp : Int)
  | send_keepalive_response (player_count : Nat)
  | send_keepalive_tcp_response
  | send_logged_in (tps : Nat)
  | call_token_validate (account_id : Int) (user_id : Int) (token : String)
  | call_get_user_data (account_id : Int)
  | check_already_logged_in (account_id : Int)
  | increment_player_count
  | create_global_room_player (account_id : Int)
deriving DecidableEq, Repr

/-- The player count carried by a response packet, if the packet type has such
a field: the UDP keepalive response and the ping response carry one, the TCP
keepalive response (a unit struct in the source) carries none. -/
def Event.carried_player_count : Event → Option Nat
  | Event.send_ping_response _ n => some n
  | Event.send_keepalive_response n => some n
  | _ => none

/-- The handler error relevant to the embedded handlers
(`PacketHandlingError::WrongCryptoBoxState`). -/
inductive PacketHandlingError where
  | WrongCryptoBoxState
deriving DecidableEq, Repr

/-- Modelled from the spec: the read-only server configuration and the
external collaborators the handlers consult (central bridge maintenance
flag, standalone flag, whitelist flag, token validator, profile service,
role resolver), none of which are declared under `src/`.  The functions
return `Except` to model the fallible external calls. -/
structure GameServer where
  protocol_version : Nat := 12
  secret_key : Nat := 99
  public_key : Nat := 100
  standalone : Bool := false
  maintenance : Bool := false
  whitelist : Bool := false
  tps : Nat := 30
  player_count : Nat := 3
  token_validate : Int → Int → String → Except String String := fun _ _ _ => Except.ok "Alice"
  get_user_data : Int → Except String UserEntry := fun _ => Except.ok {}
  role_compute : List String → Nat := fun _ => 0
  special_user_data_from : UserEntry → Nat := fun _ => 0

/-- Inbound handshake-start packet: protocol version and client public key. -/
structure CryptoHandshakeStartPacket where
  protocol : Nat
  key : Nat
deriving DecidableEq, Repr

/-- Inbound login packet fields used by `handle_login`. -/
structure LoginPacket where
  account_id : Int
  user_id : Int
  name : String
  token : String
  icons : Nat
  fragmentation_limit : Nat
  secret_key : Int
deriving DecidableEq, Repr

/-- Inbound ping packet. -/
structure PingPacket where
  id : Nat
deriving DecidableEq, Repr

instance {ε α : Type} [DecidableEq ε] [DecidableEq α] : DecidableEq (Except ε α) := fun a b =>
  match a, b with
  | Except.ok x, Except.ok y =>
    if h : x = y then isTrue (by rw [h]) else isFalse (by intro hc; cases hc; exact h rfl)
  | Except.error x, Except.error y =>
    if h : x = y then isTrue (by rw [h]) else isFalse (by intro hc; cases hc; exact h rfl)
  | Except.ok _, Except.error _ => isFalse (by intro hc; cases hc)
  | Except.error _, Except.ok _ => isFalse (by intro hc; cases hc)

/-- Result of `handle_crypto_handshake`: new session state, effects, and the
handler's return value. -/
structure HandshakeOutcome where
  state : SessionState
  events : List Event
  result : Except PacketHandlingError Unit
deriving DecidableEq, Repr

/-- Result of `handle_login`: new session state, effects, and whether the
handler panicked (the only panic site is the `violation_expiry.unwrap()` on
the banned branch). -/
structure LoginOutcome where
  state : SessionState
  events : List Event
  panicked : Bool
deriving DecidableEq, Repr

/-- Embeds `handle_ping` (`connection.rs` lines 11-17): always answered with
the current player count, no authentication required. -/
def handle_ping (gs : GameServer) (p : PingPacket) : List Event :=
  [Event.send_ping_response p.id gs.player_count]

/-- Embeds `handle_crypto_handshake` (`connection.rs` lines 19-43).
The version gate passes when the protocol equals `PROTOCOL_VERSION` or the
wildcard `0xffff`; otherwise the session is terminated and a mismatch packet
sent.  A second handshake on a session whose `crypto_box` slot is occupied
disconnects with a message and returns `WrongCryptoBoxState`; otherwise the
crypto context is built from the client key and the server secret key and
installed in the write-once slot.  `disconnect` (declared outside `src/`) is
modelled from the spec as sending the explanatory message and terminating
the session. -/
def handle_crypto_handshake (gs : GameServer) (s : SessionState)
    (p : CryptoHandshakeStartPacket) : HandshakeOutcome :=
  if p.protocol ≠ gs.protocol_version ∧ p.protocol ≠ 0xffff then
    { state := { s with terminated := true },
      events := [Event.send_protocol_mismatch gs.protocol_version],
      result := Except.ok () }
  else if s.crypto_box.isSome then
    { state := { s with terminated := true },
      events := [Event.send_disconnect "attempting to perform a second handshake in one session"],
      result := Except.error PacketHandlingError.WrongCryptoBoxState }
  else
    { state := { s with crypto_box := some { client_key := p.key, server_secret_key := gs.secret_key } },
      events := [Event.send_handshake_response gs.public_key],
      result := Except.ok () }

/-- Embeds `handle_keepalive` (`connection.rs` lines 45-52).  `gs_needauth!`
(declared outside `src/`) is modelled from the spec: an unauthenticated
session drops the packet silently with no response. -/
def handle_keepalive (gs : GameServer) (s : SessionState) : List Event :=
  if s.authenticated then [Event.send_keepalive_response gs.player_count] else []

/-- Embeds `handle_keepalive_tcp` (`connection.rs` lines 205-209): same
silent-drop guard, but the response is the field-less
`KeepaliveTCPResponsePacket`. -/
def handle_keepalive_tcp (s : SessionState) : List Event :=
  if s.authenticated then [Event.send_keepalive_tcp_response] else []

/-- Embeds the success tail of `handle_login` (`connection.rs` lines
159-197): store identity fields, increment the player count, populate the
display data, add the player to the global room, send the logged-in
packet. -/
def login_success_tail (gs : GameServer) (s : SessionState) (p : LoginPacket)
    (player_name : String) (evs : List Event) : LoginOutcome :=
  let s1 : SessionState :=
    { s with account_id := p.account_id, claim_secret_key := p.secret_key }
  let sud := gs.special_user_data_from s1.user_entry
  let s2 : SessionState :=
    { s1 with account_data :=
      { account_id := p.account_id, user_id := p.user_id, icons := p.icons,
        name := player_name, special_user_data := sud } }
  { state := s2,
    events := evs ++ [Event.increment_player_count,
                      Event.create_global_room_player p.account_id,
                      Event.send_logged_in gs.tps],
    panicked := false }

/-- Embeds `handle_login` (`connection.rs` lines 54-198), branch for branch:
already-authenticated no-op; maintenance disconnect; fragmentation-limit
check then store; non-positive-ID rejection; token validation (skipped when
standalone); `check_already_logged_in`; profile fetch with banned /
whitelist / fetch-failure branches (the banned branch `unwrap`s the optional
expiry, a panic when it is absent); then the success tail.
`gs_disconnect!` (declared outside `src/`) is modelled from the spec as
sending the explanatory message and terminating the session. -/
def handle_login (gs : GameServer) (s : SessionState) (p : LoginPacket) : LoginOutcome :=
  if s.authenticated then { state := s, events := [], panicked := false }
  else if gs.maintenance then
    { state := { s with terminated := true },
      events := [Event.send_disconnect "The server is currently under maintenance, please try connecting again later."],
      panicked := false }
  else if p.fragmentation_limit < 1300 then
    { state := { s with terminated := true },
      events := [Event.send_disconnect ("The client fragmentation limit is too low (" ++ toString p.fragmentation_limit ++ " bytes) to be accepted")],
      panicked := false }
  else
    let s0 : SessionState := { s with fragmentation_limit := p.fragmentation_limit }
    if p.account_id ≤ 0 ∨ p.user_id ≤ 0 then
      { state := { s0 with terminated := true },
        events := [Event.send_login_failed ("Invalid account/user ID was sent (" ++ toString p.account_id ++ " and " ++ toString p.user_id ++ "). Please note that you must be signed into a Geometry Dash account before connecting.")],
        panicked := false }
    else if gs.standalone then
      login_success_tail gs s0 p p.name [Event.check_already_logged_in p.account_id]
    else
      match gs.token_validate p.account_id p.user_id p.token with
      | Except.error err =>
        { state := { s0 with terminated := true },
          events := [Event.call_token_validate p.account_id p.user_id p.token,
                     Event.send_login_failed ("authentication failed: " ++ err)],
          panicked := false }
      | Except.ok verified_name =>
        let evs := [Event.call_token_validate p.account_id p.user_id p.token,
                    Event.check_already_logged_in p.account_id,
                    Event.call_get_user_data p.account_id]
        match gs.get_user_data p.account_id with
        | Except.ok user =>
          if user.is_banned then
            match user.violation_expiry with
            | none => { state := { s0 with terminated := true }, events := evs, panicked := true }
            | some t =>
              { state := { s0 with terminated := true },
                events := evs ++ [Event.send_banned (user.violation_reason.getD "No reason given") t],
                panicked := false }
          else if gs.whitelist && !user.is_whitelisted then
            { state := { s0 with terminated := true },
              events := evs ++ [Event.send_login_failed "This server has whitelist enabled and your account has not been allowed."],
              panicked := false }
          else
            let s1 : SessionState :=
              { s0 with user_role := gs.role_compute user.user_roles, user_entry := user }
            login_success_tail gs s1 p verified_name evs
        | Except.error e =>
          { state := { s0 with terminated := true },
            events := evs ++ [Event.send_login_failed ("failed to fetch user data: " ++ e)],
            panicked := false }

/-- A concrete server configuration using the structure defaults: networked
mode, maintenance off, whitelist off, protocol version 12, tps 30, player
count 3, a token validator that accepts with name "Alice", a profile service
returning a clean entry. -/
def gs_base : GameServer := {}

/-- A concrete well-formed login packet. -/
def p_login : LoginPacket :=
  { account_id := 7, user_id := 7, name := "A", token := "t", icons := 0,
    fragmentation_limit := 2000, secret_key := 1 }

/-- A concrete authenticated session. -/
def s_auth : SessionState := { account_id := 5 }

/-- A concrete session whose crypto context is already installed. -/
def s_with_box : SessionState :=
  { crypto_box := some { client_key := 1, server_secret_key := 2 } }

/-- A concrete banned profile entry carrying a reason and an expiry. -/
def banned_entry : UserEntry :=
  { is_banned := true, violation_reason := some "cheating", violation_expiry := some 1700000000 }

/-- `gs_base` whose profile service reports the account banned. -/
def gs_banned : GameServer :=
  { gs_base with get_user_data := fun _ => Except.ok banned_entry }

/-- A banned profile entry with no expiry timestamp. -/
def expiry_none_entry : UserEntry :=
  { is_banned := true, violation_reason := some "x", violation_expiry := none }

/-- `gs_base` whose profile service reports the account banned without an
expiry. -/
def gs_expiry_none : GameServer :=
  { gs_base with get_user_data := fun _ => Except.ok expiry_none_entry }

/-- `gs_base` whose token validator rejects every token. -/
def gs_bad_token : GameServer :=
  { gs_base with token_validate := fun _ _ _ => Except.error "InvalidToken" }

/-- A login packet with a zero account id and a negative user id. -/
def p_bad_ids : LoginPacket := { p_login with account_id := 0, user_id := -1 }

/-- C2: on a session whose crypto context is already installed, any further
handshake-start packet leaves the context untouched (it is never replaced),
and whenever the packet passes the protocol-version gate the handler
disconnects the session with an explanatory message and returns the
`WrongCryptoBoxState` error. -/
theorem C2_second_handshake_never_replaces_context
    (gs : GameServer) (s : SessionState) (p : CryptoHandshakeStartPacket)
    (cb : ChaChaBox) (hcb : s.crypto_box = some cb) :
    (handle_crypto_handshake gs s p).state.crypto_box = some cb ∧
    (p.protocol = gs.protocol_version ∨ p.protocol = 0xffff →
      (handle_crypto_handshake gs s p).events =
        [Event.send_disconnect "attempting to perform a second handshake in one session"] ∧
      (handle_crypto_handshake gs s p).result = Except.error PacketHandlingError.WrongCryptoBoxState ∧
      (handle_crypto_handshake gs s p).state.terminated = true) := by
  by_cases hp : p.protocol ≠ gs.protocol_version ∧ p.protocol ≠ 0xffff
  · refine ⟨by simp [handle_crypto_handshake, hp, hcb], ?_⟩
    rintro (h | h)
    · exact absurd h hp.1
    · exact absurd h hp.2
  · exact ⟨by simp [handle_crypto_handshake, hp, hcb],
      fun _ => by simp [handle_crypto_handshake, hp, hcb]⟩

/-- C2 witness: the theorem applied to a concrete session holding a crypto
context and a handshake packet with the matching protocol version. -/
theorem C2_second_handshake_never_replaces_context_witness :
    (handle_crypto_handshake gs_base s_with_box { protocol := 12, key := 5 }).state.crypto_box =
      some { client_key := 1, server_secret_key := 2 } ∧
    (handle_crypto_handshake gs_base s_with_box { protocol := 12, key := 5 }).events =
      [Event.send_disconnect "attempting to perform a second handshake in one session"] ∧
    (handle_crypto_handshake gs_base s_with_box { protocol := 12, key := 5 }).result =
      Except.error PacketHandlingError.WrongCryptoBoxState := by
  have h := C2_second_handshake_never_replaces_context gs_base s_with_box
    { protocol := 12, key := 5 } { client_key := 1, server_secret_key := 2 } (by decide)
  exact ⟨h.1, (h.2 (Or.inl rfl)).1, (h.2 (Or.inl rfl)).2.1⟩

/-- C3 counterexample: the claim says a handshake-start packet with the
wildcard probe value 0xffff is treated as a version-discovery request and no
crypto context is built; but on a fresh session the handler proceeds past
the version gate, installs a context derived from the client key, and
answers with the server public key. -/
theorem C3_wildcard_probe_installs_crypto_context :
    (handle_crypto_handshake gs_base {} { protocol := 0xffff, key := 7 }).state.crypto_box =
      some { client_key := 7, server_secret_key := 99 } ∧
    (handle_crypto_handshake gs_base {} { protocol := 0xffff, key := 7 }).events =
      [Event.send_handshake_response 100] ∧
    (handle_crypto_handshake gs_base {} { protocol := 0xffff, key := 7 }).result =
      Except.ok () ∧
    gs_base.protocol_version ≠ 0xffff := by
  decide

/-- C3 (amended): a handshake-start packet whose protocol equals the wildcard
value 0xffff passes the version gate exactly like the supported version: on a
session with no crypto context the handler builds and installs the context
and responds with the server public key — 0xffff is not a do-not-proceed
sentinel. -/
theorem C3_wildcard_probe_proceeds_like_supported_version
    (gs : GameServer) (s : SessionState) (p : CryptoHandshakeStartPacket)
    (hp : p.protocol = 0xffff) (hcb : s.crypto_box = none) :
    handle_crypto_handshake gs s p =
      { state := { s with crypto_box := some { client_key := p.key, server_secret_key := gs.secret_key } },
        events := [Event.send_handshake_response gs.public_key],
        result := Except.ok () } := by
  simp [handle_crypto_handshake, hp, hcb]

/-- C3 amended witness: the amended theorem applied at a concrete fresh
session and a concrete wildcard packet. -/
theorem C3_wildcard_probe_proceeds_like_supported_version_witness :
    handle_crypto_handshake gs_base {} { protocol := 0xffff, key := 7 } =
      { state := { crypto_box := some { client_key := 7, server_secret_key := 99 } },
        events := [Event.send_handshake_response 100],
        result := Except.ok () } :=
  C3_wildcard_probe_proceeds_like_supported_version gs_base {}
    { protocol := 0xffff, key := 7 } rfl rfl

/-- C4 counterexample: the claim says a keepalive on either transport is
answered, when authenticated, with a response carrying the current global
player count; but the TCP keepalive handler answers an authenticated session
with the field-less `KeepaliveTCPResponsePacket`, which carries no player
count at all. -/
theorem C4_tcp_keepalive_response_carries_no_player_count :
    s_auth.authenticated = true ∧
    handle_keepalive_tcp s_auth = [Event.send_keepalive_tcp_response] ∧
    Event.carried_player_count Event.send_keepalive_tcp_response = none := by
  decide

/-- C4 (amended): for an authenticated session the UDP keepalive response
carries the current global player count while the TCP keepalive response is
the field-less packet carrying no count; on an unauthenticated session both
transports drop the packet silently with no response. -/
theorem C4_keepalive_behaviour (gs : GameServer) (s : SessionState) :
    (s.authenticated = true →
      handle_keepalive gs s = [Event.send_keepalive_response gs.player_count] ∧
      Event.carried_player_count (Event.send_keepalive_response gs.player_count) =
        some gs.player_count ∧
      handle_keepalive_tcp s = [Event.send_keepalive_tcp_response] ∧
      Event.carried_player_count Event.send_keepalive_tcp_response = none) ∧
    (s.authenticated = false →
      handle_keepalive gs s = [] ∧ handle_keepalive_tcp s = []) := by
  constructor <;> intro h <;>
    simp [handle_keepalive, handle_keepalive_tcp, Event.carried_player_count, h]

/-- C4 amended witness: the amended theorem applied at a concrete
authenticated session and at a concrete unauthenticated one. -/
theorem C4_keepalive_behaviour_witness :
    handle_keepalive gs_base s_auth = [Event.send_keepalive_response 3] ∧
    handle_keepalive_tcp s_auth = [Event.send_keepalive_tcp_response] ∧
    handle_keepalive gs_base ({} : SessionState) = [] ∧
    handle_keepalive_tcp ({} : SessionState) = [] := by
  refine ⟨?_, ?_, ?_, ?_⟩
  · exact ((C4_keepalive_behaviour gs_base s_auth).1 (by decide)).1
  · exact ((C4_keepalive_behaviour gs_base s_auth).1 (by decide)).2.2.1
  · exact ((C4_keepalive_behaviour gs_base ({} : SessionState)).2 (by decide)).1
  · exact ((C4_keepalive_behaviour gs_base ({} : SessionState)).2 (by decide)).2

/-- C7: a login packet arriving on an already-authenticated session is an
idempotent no-op: the handler succeeds without panicking, sends nothing,
performs no registry operation, and returns the session state completely
unchanged. -/
theorem C7_relogin_when_authenticated_is_noop
    (gs : GameServer) (s : SessionState) (p : LoginPacket)
    (hauth : 0 < s.account_id) :
    handle_login gs s p = { state := s, events := [], panicked := false } := by
  have h : s.authenticated = true := by
    simp [SessionState.authenticated, hauth]
  simp [handle_login, h]

/-- C7 witness: the theorem applied to a concrete authenticated session and a
concrete login packet. -/
theorem C7_relogin_when_authenticated_is_noop_witness :
    handle_login gs_base s_auth p_login = { state := s_auth, events := [], panicked := false } :=
  C7_relogin_when_authenticated_is_noop gs_base s_auth p_login (by decide)

/-- C9: the claim says the banned branch never panics even when the entry's
`violation_expiry` is absent; but the source `unwrap`s the expiry, so a
banned entry without one makes `handle_login` panic after terminating the
session and before any banned packet is sent. -/
theorem C9_banned_without_expiry_panics :
    expiry_none_entry.is_banned = true ∧
    expiry_none_entry.violation_expiry = none ∧
    (handle_login gs_expiry_none {} p_login).panicked = true ∧
    (handle_login gs_expiry_none {} p_login).state.terminated = true ∧
    (∀ m t, Event.send_banned m t ∉ (handle_login gs_expiry_none {} p_login).events) := by
  refine ⟨by decide, by decide, by decide, by decide, ?_⟩
  intro m t
  have h : (handle_login gs_expiry_none {} p_login).events =
      [Event.call_token_validate 7 7 "t", Event.check_already_logged_in 7,
       Event.call_get_user_data 7] := by decide
  rw [h]
  simp

/-- C1 counterexample: the claim says a login that fails on the banned branch
never triggers eviction of a prior session; but on a networked login whose
token validates and whose profile comes back banned, the handler has already
invoked `check_already_logged_in` (the admit/evict call) before the profile
fetch, so the eviction call is in the trace of this failed attempt. -/
theorem C1_banned_login_still_triggers_eviction :
    Event.check_already_logged_in 7 ∈ (handle_login gs_banned {} p_login).events ∧
    Event.send_banned "cheating" 1700000000 ∈ (handle_login gs_banned {} p_login).events ∧
    (handle_login gs_banned {} p_login).state.terminated = true ∧
    (handle_login gs_banned {} p_login).events =
      [Event.call_token_validate 7 7 "t", Event.check_already_logged_in 7,
       Event.call_get_user_data 7, Event.send_banned "cheating" 1700000000] := by
  decide

/-- C1 (amended): in networked mode the admit/evict call
(`check_already_logged_in`) happens after token validation succeeds but
before the profile fetch: a login failing on the invalid-token branch (or
earlier) never triggers eviction, while once the token validates the
eviction call precedes the profile fetch — so a login failing on the
banned, whitelist, or profile-fetch-failure branch has already triggered
eviction. -/
theorem C1_eviction_between_token_validation_and_profile_fetch
    (gs : GameServer) (s : SessionState) (p : LoginPacket)
    (hsa : gs.standalone = false) (hauth : s.authenticated = false)
    (hm : gs.maintenance = false) (hfr : ¬ p.fragmentation_limit < 1300)
    (ha : 0 < p.account_id) (hu : 0 < p.user_id) :
    (∀ e, gs.token_validate p.account_id p.user_id p.token = Except.error e →
      Event.check_already_logged_in p.account_id ∉ (handle_login gs s p).events) ∧
    (∀ nm, gs.token_validate p.account_id p.user_id p.token = Except.ok nm →
      ∃ rest, (handle_login gs s p).events =
        Event.call_token_validate p.account_id p.user_id p.token ::
        Event.check_already_logged_in p.account_id ::
        Event.call_get_user_data p.account_id :: rest) := by
  have hids : ¬ (p.account_id ≤ 0 ∨ p.user_id ≤ 0) := by
    push_neg
    exact ⟨ha, hu⟩
  constructor
  · intro e htv
    simp [handle_login, hauth, hm, hfr, hids, hsa, htv]
  · intro nm htv
    cases hfu : gs.get_user_data p.account_id with
    | error e =>
      exact ⟨[Event.send_login_failed ("failed to fetch user data: " ++ e)],
        by simp [handle_login, hauth, hm, hfr, hids, hsa, htv, hfu]⟩
    | ok user =>
      by_cases hb : user.is_banned = true
      · cases hexp : user.violation_expiry with
        | none =>
          exact ⟨[], by simp [handle_login, hauth, hm, hfr, hids, hsa, htv, hfu, hb, hexp]⟩
        | some t =>
          exact ⟨[Event.send_banned (user.violation_reason.getD "No reason given") t],
            by simp [handle_login, hauth, hm, hfr, hids, hsa, htv, hfu, hb, hexp]⟩
      · by_cases hw : (gs.whitelist && !user.is_whitelisted) = true
        · exact ⟨[Event.send_login_failed "This server has whitelist enabled and your account has not been allowed."],
            by simp [handle_login, hauth, hm, hfr, hids, hsa, htv, hfu, hb, hw]⟩
        · exact ⟨[Event.increment_player_count, Event.create_global_room_player p.account_id,
              Event.send_logged_in gs.tps],
            by simp [handle_login, login_success_tail, hauth, hm, hfr, hids, hsa, htv, hfu, hb, hw]⟩

/-- C1 amended witness: the amended theorem applied to the concrete
banned-profile configuration, exhibiting the eviction call between token
validation and the profile fetch. -/
theorem C1_eviction_between_token_validation_and_profile_fetch_witness :
    ∃ rest, (handle_login gs_banned {} p_login).events =
      Event.call_token_validate 7 7 "t" :: Event.check_already_logged_in 7 ::
      Event.call_get_user_data 7 :: rest :=
  (C1_eviction_between_token_validation_and_profile_fetch gs_banned {} p_login
    rfl (by decide) rfl (by decide) (by decide) (by decide)).2 "Alice" rfl

/-- C5: with maintenance off and the session not yet authenticated, a login
whose declared fragmentation limit is below 1300 is rejected with a
disconnect carrying the too-low message, while a limit of at least 1300
passes the fragmentation check: the limit is stored on the session and no
disconnect packet of any kind is sent on the rest of the login path. -/
theorem C5_fragmentation_limit_boundary
    (gs : GameServer) (s : SessionState) (p : LoginPacket)
    (hauth : s.authenticated = false) (hm : gs.maintenance = false) :
    (p.fragmentation_limit < 1300 →
      handle_login gs s p =
        { state := { s with terminated := true },
          events := [Event.send_disconnect ("The client fragmentation limit is too low (" ++ toString p.fragmentation_limit ++ " bytes) to be accepted")],
          panicked := false }) ∧
    (1300 ≤ p.fragmentation_limit →
      (handle_login gs s p).state.fragmentation_limit = p.fragmentation_limit ∧
      ∀ m, Event.send_disconnect m ∉ (handle_login gs s p).events) := by
  constructor
  · intro hlt
    simp [handle_login, hauth, hm, hlt]
  · intro hge
    have hfr : ¬ p.fragmentation_limit < 1300 := not_lt.mpr hge
    by_cases hids : p.account_id ≤ 0 ∨ p.user_id ≤ 0
    · simp [handle_login, hauth, hm, hfr, hids]
    · by_cases hsa : gs.standalone = true
      · simp [handle_login, login_success_tail, hauth, hm, hfr, hids, hsa]
      · cases htv : gs.token_validate p.account_id p.user_id p.token with
        | error e => simp [handle_login, hauth, hm, hfr, hids, hsa, htv]
        | ok nm =>
          cases hfu : gs.get_user_data p.account_id with
          | error e => simp [handle_login, hauth, hm, hfr, hids, hsa, htv, hfu]
          | ok user =>
            by_cases hb : user.is_banned = true
            · cases hexp : user.violation_expiry with
              | none => simp [handle_login, hauth, hm, hfr, hids, hsa, htv, hfu, hb, hexp]
              | some t => simp [handle_login, hauth, hm, hfr, hids, hsa, htv, hfu, hb, hexp]
            · by_cases hw : (gs.whitelist && !user.is_whitelisted) = true
              · simp [handle_login, hauth, hm, hfr, hids, hsa, htv, hfu, hb, hw]
              · simp [handle_login, login_success_tail, hauth, hm, hfr, hids, hsa, htv, hfu, hb, hw]

/-- C5 witness: the theorem applied twice at concrete packets on the 1299 /
1300 boundary. -/
theorem C5_fragmentation_limit_boundary_witness :
    handle_login gs_base {} { p_login with fragmentation_limit := 1299 } =
      { state := { terminated := true },
        events := [Event.send_disconnect "The client fragmentation limit is too low (1299 bytes) to be accepted"],
        panicked := false } ∧
    (handle_login gs_base {} { p_login with fragmentation_limit := 1300 }).state.fragmentation_limit = 1300 := by
  constructor
  · exact (C5_fragmentation_limit_boundary gs_base {}
      { p_login with fragmentation_limit := 1299 } (by decide) rfl).1 (by decide)
  · exact ((C5_fragmentation_limit_boundary gs_base {}
      { p_login with fragmentation_limit := 1300 } (by decide) rfl).2 (by decide)).1

/-- C6: a login packet with a non-positive account id or user id on a fresh
session (maintenance off, fragmentation limit acceptable) terminates the
session and sends exactly one login-failed packet with the invalid-id
message, and no external call — token validation or profile fetch — appears
in the trace. -/
theorem C6_nonpositive_ids_rejected_before_external_calls
    (gs : GameServer) (s : SessionState) (p : LoginPacket)
    (hauth : s.authenticated = false) (hm : gs.maintenance = false)
    (hfr : ¬ p.fragmentation_limit < 1300)
    (hids : p.account_id ≤ 0 ∨ p.user_id ≤ 0) :
    (handle_login gs s p).state.terminated = true ∧
    (handle_login gs s p).events =
      [Event.send_login_failed ("Invalid account/user ID was sent (" ++ toString p.account_id ++ " and " ++ toString p.user_id ++ "). Please note that you must be signed into a Geometry Dash account before connecting.")] ∧
    (∀ a u t, Event.call_token_validate a u t ∉ (handle_login gs s p).events) ∧
    (∀ a, Event.call_get_user_data a ∉ (handle_login gs s p).events) := by
  simp [handle_login, hauth, hm, hfr, hids]

/-- C6 witness: the theorem applied at the concrete packet with account id 0
and user id -1. -/
theorem C6_nonpositive_ids_rejected_before_external_calls_witness :
    (handle_login gs_base {} p_bad_ids).state.terminated = true ∧
    (handle_login gs_base {} p_bad_ids).events =
      [Event.send_login_failed "Invalid account/user ID was sent (0 and -1). Please note that you must be signed into a Geometry Dash account before connecting."] := by
  have h := C6_nonpositive_ids_rejected_before_external_calls gs_base {} p_bad_ids
    (by decide) rfl (by decide) (by decide)
  exact ⟨h.1, h.2.1⟩

/-- C8: in networked mode, when the token validator returns an error for a
fresh login attempt that passed the earlier checks, the trace holds exactly
one login-failed packet, whose message is the error appended to the prefix
"authentication failed: ", the session is terminated, and the player count
is not incremented. -/
theorem C8_invalid_token_rejection
    (gs : GameServer) (s : SessionState) (p : LoginPacket) (e : String)
    (hsa : gs.standalone = false) (hauth : s.authenticated = false)
    (hm : gs.maintenance = false) (hfr : ¬ p.fragmentation_limit < 1300)
    (ha : 0 < p.account_id) (hu : 0 < p.user_id)
    (htv : gs.token_validate p.account_id p.user_id p.token = Except.error e) :
    (handle_login gs s p).events =
      [Event.call_token_validate p.account_id p.user_id p.token,
       Event.send_login_failed ("authentication failed: " ++ e)] ∧
    (handle_login gs s p).state.terminated = true ∧
    Event.increment_player_count ∉ (handle_login gs s p).events := by
  have hids : ¬ (p.account_id ≤ 0 ∨ p.user_id ≤ 0) := by
    push_neg
    exact ⟨ha, hu⟩
  simp [handle_login, hauth, hm, hfr, hids, hsa, htv]

/-- C8 witness: the theorem applied at the concrete rejecting token
validator. -/
theorem C8_invalid_token_rejection_witness :
    (handle_login gs_bad_token {} p_login).events =
      [Event.call_token_validate 7 7 "t",
       Event.send_login_failed "authentication failed: InvalidToken"] ∧
    (handle_login gs_bad_token {} p_login).state.terminated = true := by
  have h := C8_invalid_token_rejection gs_bad_token {} p_login "InvalidToken"
    rfl (by decide) rfl (by decide) (by decide) (by decide) rfl
  exact ⟨h.1, h.2.1⟩

/-- C10: starting from a session whose identity fields are unset, any login
attempt that does not reach the logged-in packet leaves `account_id` and
`claim_secret_key` unset and never emits the player-count increment; the
fragmentation limit, however, is stored as soon as its own check passes
(maintenance off, limit at least 1300), even when a later step fails. -/
theorem C10_failed_login_never_authenticates
    (gs : GameServer) (s : SessionState) (p : LoginPacket)
    (ha0 : s.account_id = 0) (hc0 : s.claim_secret_key = 0) :
    ((∀ t, Event.send_logged_in t ∉ (handle_login gs s p).events) →
      (handle_login gs s p).state.account_id = 0 ∧
      (handle_login gs s p).state.claim_secret_key = 0 ∧
      Event.increment_player_count ∉ (handle_login gs s p).events) ∧
    (gs.maintenance = false → ¬ p.fragmentation_limit < 1300 →
      (handle_login gs s p).state.fragmentation_limit = p.fragmentation_limit) := by
  have hauth : s.authenticated = false := by
    simp [SessionState.authenticated, ha0]
  constructor
  · intro hnl
    by_cases hm : gs.maintenance = true
    · simp [handle_login, hauth, hm, ha0, hc0]
    · by_cases hfr : p.fragmentation_limit < 1300
      · simp [handle_login, hauth, hm, hfr, ha0, hc0]
      · by_cases hids : p.account_id ≤ 0 ∨ p.user_id ≤ 0
        · simp [handle_login, hauth, hm, hfr, hids, ha0, hc0]
        · by_cases hsa : gs.standalone = true
          · refine absurd ?_ (hnl gs.tps)
            simp [handle_login, login_success_tail, hauth, hm, hfr, hids, hsa]
          · cases htv : gs.token_validate p.account_id p.user_id p.token with
            | error e => simp [handle_login, hauth, hm, hfr, hids, hsa, htv, ha0, hc0]
            | ok nm =>
              cases hfu : gs.get_user_data p.account_id with
              | error e => simp [handle_login, hauth, hm, hfr, hids, hsa, htv, hfu, ha0, hc0]
              | ok user =>
                by_cases hb : user.is_banned = true
                · cases hexp : user.violation_expiry with
                  | none => simp [handle_login, hauth, hm, hfr, hids, hsa, htv, hfu, hb, hexp, ha0, hc0]
                  | some t => simp [handle_login, hauth, hm, hfr, hids, hsa, htv, hfu, hb, hexp, ha0, hc0]
                · by_cases hw : (gs.whitelist && !user.is_whitelisted) = true
                  · simp [handle_login, hauth, hm, hfr, hids, hsa, htv, hfu, hb, hw, ha0, hc0]
                  · refine absurd ?_ (hnl gs.tps)
                    simp [handle_login, login_success_tail, hauth, hm, hfr, hids, hsa, htv, hfu, hb, hw]
  · intro hm hfr
    by_cases hids : p.account_id ≤ 0 ∨ p.user_id ≤ 0
    · simp [handle_login, hauth, hm, hfr, hids]
    · by_cases hsa : gs.standalone = true
      · simp [handle_login, login_success_tail, hauth, hm, hfr, hids, hsa]
      · cases htv : gs.token_validate p.account_id p.user_id p.token with
        | error e => simp [handle_login, hauth, hm, hfr, hids, hsa, htv]
        | ok nm =>
          cases hfu : gs.get_user_data p.account_id with
          | error e => simp [handle_login, hauth, hm, hfr, hids, hsa, htv, hfu]
          | ok user =>
            by_cases hb : user.is_banned = true
            · cases hexp : user.violation_expiry with
              | none => simp [handle_login, hauth, hm, hfr, hids, hsa, htv, hfu, hb, hexp]
              | some t => simp [handle_login, hauth, hm, hfr, hids, hsa, htv, hfu, hb, hexp]
            · by_cases hw : (gs.whitelist && !user.is_whitelisted) = true
              · simp [handle_login, hauth, hm, hfr, hids, hsa, htv, hfu, hb, hw]
              · simp [handle_login, login_success_tail, hauth, hm, hfr, hids, hsa, htv, hfu, hb, hw]

/-- C10 witness: the theorem applied at the concrete rejecting token
validator, whose failed login stores the fragmentation limit but leaves the
identity fields unset. -/
theorem C10_failed_login_never_authenticates_witness :
    (handle_login gs_bad_token {} p_login).state.account_id = 0 ∧
    (handle_login gs_bad_token {} p_login).state.claim_secret_key = 0 ∧
    Event.increment_player_count ∉ (handle_login gs_bad_token {} p_login).events ∧
    (handle_login gs_bad_token {} p_login).state.fragmentation_limit = 2000 := by
  have h := C10_failed_login_never_authenticates gs_bad_token {} p_login rfl rfl
  have hev : (handle_login gs_bad_token {} p_login).events =
      [Event.call_token_validate 7 7 "t",
       Event.send_login_failed "authentication failed: InvalidToken"] := by decide
  have h1 := h.1 (by rw [hev]; intro t; simp)
  exact ⟨h1.1, h1.2.1, h1.2.2, h.2 rfl (by decide)⟩

end Globed
